import Mathlib

/-!
Shallow embedding of the item-panel server (src/server.js) core:
the Lua config emitter behind GET /generate-lua and the item store
deletion route DELETE /items/:index, together with theorems settling
the specification claims about them.

Conventions of the embedding:
* JavaScript numbers on item fields are modelled as `Int` (only their
  truthiness and decimal printing matter to the emitter).
* A field that may be absent is an `Option`; JavaScript truthiness of
  a present value is modelled explicitly (`0` and `""` are falsy,
  any object — `client`, `server`, `status` — is truthy when present).
* `JSON.parse` object key order for the `status` map is modelled by
  `jsEntries`: own-property enumeration lists array-index-like keys
  first in ascending numeric order, then the remaining string keys in
  insertion order; the input list carries insertion order.
* The filesystem seen by the delete route is an `AssetStore`: the set
  of stored image filenames plus the set of filenames whose
  `fs.unlinkSync` call throws; `items.json` read/write plumbing is out
  of scope (the route is a function of the parsed collection, and an
  `Except.error` result means the handler answered 500 before any
  write of the collection happened).
-/

set_option maxRecDepth 100000

namespace ItemPanel

/-- A button entry of an item (`{label, group, action}`). -/
structure ButtonDef where
  label : String
  group : String
  action : String
deriving DecidableEq

/-- The optional `client` sub-record of an item. `status` carries the
key/value pairs in JSON insertion order; values are kept as the raw
text that JavaScript string interpolation would produce for them. -/
structure ClientDef where
  anim : Option String := none
  prop : Option String := none
  usetime : Option Int := none
  notification : Option String := none
  image : Option String := none
  imageurl : Option String := none
  status : Option (List (String × String)) := none
deriving DecidableEq

/-- The optional `server` sub-record of an item. -/
structure ServerDef where
  «export» : Option String := none
deriving DecidableEq

/-- An item record as stored in `items.json`. -/
structure Item where
  name : String
  label : String
  weight : Option Int := none
  degrade : Option Int := none
  consume : Option Int := none
  stack : Option Bool := none
  client : Option ClientDef := none
  server : Option ServerDef := none
  buttons : Option (List ButtonDef) := none
deriving DecidableEq

/-- JavaScript truthiness of an optional number (`0` is falsy). -/
def truthyNum : Option Int → Bool
  | none => false
  | some n => n != 0

/-- JavaScript truthiness of an optional string (`""` is falsy). -/
def truthyStr : Option String → Bool
  | none => false
  | some s => !s.isEmpty

/-- JavaScript truthiness of an optional boolean. -/
def truthyBool : Option Bool → Bool
  | none => false
  | some b => b

/-- Match of the regex prefix `^https?:\/\/` on a character list:
returns the characters after the scheme separator when it matches. -/
def afterScheme : List Char → Option (List Char)
  | 'h' :: 't' :: 't' :: 'p' :: 's' :: ':' :: '/' :: '/' :: rest => some rest
  | 'h' :: 't' :: 't' :: 'p' :: ':' :: '/' :: '/' :: rest => some rest
  | _ => none

/-- `url.replace(/^https?:\/\/[^\/]+/, '')` on a character list: when
the string starts with `http://` or `https://` followed by at least one
non-slash character, drop the scheme and that maximal non-slash run;
otherwise return the input unchanged. -/
def stripSchemeAuthL (cs : List Char) : List Char :=
  match afterScheme cs with
  | some rest =>
      let auth := rest.takeWhile (fun c => c != '/')
      if auth.isEmpty then cs else rest.drop auth.length
  | none => cs

/-- String wrapper of `stripSchemeAuthL`. -/
def stripSchemeAuth (s : String) : String :=
  String.mk (stripSchemeAuthL s.data)

/-- The imageurl rewriting step of the emitter (server.js lines
184–188): strip any existing scheme+authority prefix, then prepend the
serving base URL. -/
def rewriteImageUrl (baseUrl url : String) : String :=
  baseUrl ++ stripSchemeAuth url

/-- Numeric value of a run of decimal digit characters. -/
def digitsToNat (cs : List Char) : Nat :=
  cs.foldl (fun a c => a * 10 + (c.toNat - 48)) 0

/-- Whether a string is a JavaScript array-index property key: the
canonical decimal form of an integer below `2^32 - 1`. -/
def isArrayIndex (s : String) : Bool :=
  !s.data.isEmpty && s.data.all Char.isDigit &&
    (s == "0" || s.data.head? != some '0') && digitsToNat s.data < 4294967295

/-- Insert an entry into a list sorted by numeric key value. -/
def insertByIndex (e : String × String) :
    List (String × String) → List (String × String)
  | [] => [e]
  | f :: rest =>
      if digitsToNat e.1.data < digitsToNat f.1.data then e :: f :: rest
      else f :: insertByIndex e rest

/-- Insertion sort by numeric key value. -/
def sortByIndex : List (String × String) → List (String × String)
  | [] => []
  | e :: rest => insertByIndex e (sortByIndex rest)

/-- `Object.entries` on an object built by inserting the given
key/value pairs in order: array-index keys first in ascending numeric
order, then the other keys in insertion order. -/
def jsEntries (status : List (String × String)) : List (String × String) :=
  sortByIndex (status.filter (fun e => isArrayIndex e.1)) ++
    status.filter (fun e => !isArrayIndex e.1)

/-- Emission of a `status` sub-mapping (server.js lines 189–195); each
value is interpolated raw, without quotes. -/
def emitStatus (status : List (String × String)) : String :=
  "            status = \x7b\n" ++
    String.join ((jsEntries status).map (fun e =>
      "                [\x27" ++ e.1 ++ "\x27] = " ++ e.2 ++ ",\n")) ++
    "            \x7d,\n"

/-- Emission of a `client` sub-mapping (server.js lines 177–197). -/
def emitClient (baseUrl : String) (c : ClientDef) : String :=
  "        client = \x7b\n" ++
    (if truthyStr c.anim then
      "            anim = \x27" ++ c.anim.getD "" ++ "\x27,\n" else "") ++
    (if truthyStr c.prop then
      "            prop = \x27" ++ c.prop.getD "" ++ "\x27,\n" else "") ++
    (if truthyNum c.usetime then
      "            usetime = " ++ toString (c.usetime.getD 0) ++ ",\n" else "") ++
    (if truthyStr c.notification then
      "            notification = \x27" ++ c.notification.getD "" ++ "\x27,\n" else "") ++
    (if truthyStr c.image then
      "            image = \x27" ++ c.image.getD "" ++ "\x27,\n" else "") ++
    (if truthyStr c.imageurl then
      "            imageurl = \x27" ++ rewriteImageUrl baseUrl (c.imageurl.getD "") ++ "\x27,\n" else "") ++
    (match c.status with
      | some st => emitStatus st
      | none => "") ++
    "        \x7d,\n"

/-- Emission of a `server` sub-mapping (server.js lines 199–203). -/
def emitServer (s : ServerDef) : String :=
  "        server = \x7b\n" ++
    (if truthyStr s.«export» then
      "            export = \x27" ++ s.«export».getD "" ++ "\x27,\n" else "") ++
    "        \x7d,\n"

/-- Emission of one button entry (server.js lines 207–213). -/
def emitButton (b : ButtonDef) : String :=
  "            \x7b\n" ++
    "                label = \x27" ++ b.label ++ "\x27,\n" ++
    "                group = \x27" ++ b.group ++ "\x27,\n" ++
    "                action = \x27" ++ b.action ++ "\x27,\n" ++
    "            \x7d,\n"

/-- Emission of a non-empty `buttons` list (server.js lines 205–215). -/
def emitButtons (bs : List ButtonDef) : String :=
  "        buttons = \x7b\n" ++ String.join (bs.map emitButton) ++ "        \x7d,\n"

/-- Emission of one item's keyed sub-mapping: the body of the
`items.forEach` loop of GET /generate-lua (server.js lines 169–218). -/
def emitItem (baseUrl : String) (item : Item) : String :=
  "    [\x27" ++ item.name ++ "\x27] = \x7b\n" ++
  ("        label = \x27" ++ item.label ++ "\x27,\n") ++
  (if truthyNum item.weight then
    "        weight = " ++ toString (item.weight.getD 0) ++ ",\n" else "") ++
  (if truthyNum item.degrade then
    "        degrade = " ++ toString (item.degrade.getD 0) ++ ",\n" else "") ++
  (if truthyNum item.consume then
    "        consume = " ++ toString (item.consume.getD 0) ++ ",\n" else "") ++
  (if truthyBool item.stack then "        stack = true,\n" else "") ++
  (match item.client with
    | some c => emitClient baseUrl c
    | none => "") ++
  (match item.server with
    | some s => emitServer s
    | none => "") ++
  (match item.buttons with
    | some bs => if bs.length > 0 then emitButtons bs else ""
    | none => "") ++
  "    \x7d,\n"

/-- The Config Emitter: the whole Lua text produced by
GET /generate-lua from the parsed collection and the base URL
(server.js lines 168–219). -/
def generateLua (items : List Item) (baseUrl : String) : String :=
  "return \x7b\n" ++ String.join (items.map (emitItem baseUrl)) ++ "\x7d\n"

/-- `parseInt(s)` with no radix argument: skip leading whitespace, an
optional sign, then either a `0x`/`0X`-prefixed run of hexadecimal
digits or a run of decimal digits; `none` models `NaN`. -/
def parseIntJS (s : String) : Option Int :=
  let cs := s.data.dropWhile (fun c => c.isWhitespace)
  let signed : Bool × List Char :=
    match cs with
    | '-' :: rest => (true, rest)
    | '+' :: rest => (false, rest)
    | _ => (false, cs)
  let mag : Option Nat :=
    match signed.2 with
    | '0' :: 'x' :: rest => hexMag rest
    | '0' :: 'X' :: rest => hexMag rest
    | ds => decMag ds
  match mag with
  | none => none
  | some n => some (if signed.1 then -(n : Int) else (n : Int))
where
  /-- Value of the leading run of decimal digits, `none` if empty. -/
  decMag (cs : List Char) : Option Nat :=
    let ds := cs.takeWhile Char.isDigit
    if ds.isEmpty then none else some (digitsToNat ds)
  /-- Value of the leading run of hexadecimal digits, `none` if empty. -/
  hexMag (cs : List Char) : Option Nat :=
    let ds := cs.takeWhile (fun c =>
      c.isDigit || ('a' ≤ c && c ≤ 'f') || ('A' ≤ c && c ≤ 'F'))
    if ds.isEmpty then none
    else some (ds.foldl (fun a c =>
      a * 16 + (if c.isDigit then c.toNat - 48
                else if 'a' ≤ c then c.toNat - 87 else c.toNat - 55)) 0)

/-- `split(sep)` on a character list: the (never empty) list of
chunks between occurrences of the separator. -/
def splitOnChar (sep : Char) : List Char → List (List Char)
  | [] => [[]]
  | c :: rest =>
      let r := splitOnChar sep rest
      if c == sep then [] :: r
      else
        match r with
        | [] => [[c]]
        | h :: t => (c :: h) :: t

/-- `url.split('/').pop()`: the text after the last slash (the whole
string when it has no slash). -/
def lastSegment (url : String) : String :=
  String.mk ((splitOnChar '/' url.data).getLastD [])

/-- The filesystem state the delete route touches: filenames present
under `uploads/images`, and the subset whose `fs.unlinkSync` throws. -/
structure AssetStore where
  files : List String
  failing : List String
deriving DecidableEq

/-- `items.splice(index, 1)` where `index?` is the parsed route
parameter (`none` models `NaN`, coerced to `0` by splice): the actual
start is clamped into `[0, length]`, counting from the end when
negative, and at most one element is removed there. -/
def spliceRemoveOne (l : List Item) (index? : Option Int) : List Item :=
  let len : Int := l.length
  let i : Int := match index? with | none => 0 | some i => i
  let start : Int := if i < 0 then max (len + i) 0 else min i len
  l.take start.toNat ++ l.drop (start.toNat + 1)

/-- `items[index]?.client?.imageurl` followed by the truthiness test of
the enclosing `if`: JavaScript property access with a negative or `NaN`
index yields `undefined`, and an empty `imageurl` string is falsy. -/
def lookupImageurl (items : List Item) (index? : Option Int) : Option String :=
  match index? with
  | none => none
  | some i =>
      if i < 0 then none
      else
        match items.get? i.toNat with
        | none => none
        | some item =>
            match item.client with
            | none => none
            | some c =>
                match c.imageurl with
                | none => none
                | some url => if url.isEmpty then none else some url

/-- The image side effect of the delete route (server.js lines
262–272): when the looked-up imageurl is truthy, its last path segment
is unlinked if present; a throwing unlink propagates to the route's
catch block. -/
def deleteAssetStep (store : AssetStore) :
    Option String → Except String AssetStore
  | none => Except.ok store
  | some url =>
      let filename := lastSegment url
      if filename ∈ store.files then
        if filename ∈ store.failing then Except.error "Failed to delete item"
        else Except.ok { files := store.files.erase filename, failing := store.failing }
      else Except.ok store

/-- The DELETE /items/:index handler (server.js lines 256–281) as a
function of the parsed collection and the asset store: parse the index,
best-effort look up the indexed item's imageurl and unlink its file,
then splice the item out and persist. An `Except.error` is the 500
answer of the catch block, reached before the collection is written. -/
def deleteItemRoute (store : AssetStore) (items : List Item)
    (indexParam : String) : Except String (List Item × AssetStore) := do
  let index? := parseIntJS indexParam
  let store' ← deleteAssetStep store (lookupImageurl items index?)
  Except.ok (spliceRemoveOne items index?, store')

/-! Spec-side definitions, written from the specification's words, to
be compared with the source-shaped definitions above. -/

/-- Spec-side status emission: the nested `status` mapping written in
the input's key order, each value as a raw unquoted token (spec §4.2). -/
def emitStatusSpecOrder (status : List (String × String)) : String :=
  "            status = \x7b\n" ++
    String.join (status.map (fun e =>
      "                [\x27" ++ e.1 ++ "\x27] = " ++ e.2 ++ ",\n")) ++
    "            \x7d,\n"

/-- Opening line of an item's keyed sub-mapping. -/
def itemHeader (item : Item) : String :=
  "    [\x27" ++ item.name ++ "\x27] = \x7b\n"

/-- The required `label` line of an item. -/
def labelPart (item : Item) : String :=
  "        label = \x27" ++ item.label ++ "\x27,\n"

/-- The `weight` line, present exactly when the field is truthy. -/
def weightPart (item : Item) : String :=
  if truthyNum item.weight then
    "        weight = " ++ toString (item.weight.getD 0) ++ ",\n" else ""

/-- The `degrade` line, present exactly when the field is truthy. -/
def degradePart (item : Item) : String :=
  if truthyNum item.degrade then
    "        degrade = " ++ toString (item.degrade.getD 0) ++ ",\n" else ""

/-- The `consume` line, present exactly when the field is truthy. -/
def consumePart (item : Item) : String :=
  if truthyNum item.consume then
    "        consume = " ++ toString (item.consume.getD 0) ++ ",\n" else ""

/-- The `stack` marker line, present exactly when the flag is truthy. -/
def stackPart (item : Item) : String :=
  if truthyBool item.stack then "        stack = true,\n" else ""

/-- The whole `client` sub-mapping of an item, empty text when absent. -/
def clientPart (baseUrl : String) (item : Item) : String :=
  match item.client with
  | some c => emitClient baseUrl c
  | none => ""

/-- The whole `server` sub-mapping of an item, empty text when absent. -/
def serverPart (item : Item) : String :=
  match item.server with
  | some s => emitServer s
  | none => ""

/-- The whole `buttons` block of an item, empty text when the list is
absent or empty. -/
def buttonsPart (item : Item) : String :=
  match item.buttons with
  | some bs => if bs.length > 0 then emitButtons bs else ""
  | none => ""

/-- The `anim` line of a client record, when truthy. -/
def animPart (c : ClientDef) : String :=
  if truthyStr c.anim then
    "            anim = \x27" ++ c.anim.getD "" ++ "\x27,\n" else ""

/-- The `prop` line of a client record, when truthy. -/
def propPart (c : ClientDef) : String :=
  if truthyStr c.prop then
    "            prop = \x27" ++ c.prop.getD "" ++ "\x27,\n" else ""

/-- The `usetime` line of a client record, when truthy. -/
def usetimePart (c : ClientDef) : String :=
  if truthyNum c.usetime then
    "            usetime = " ++ toString (c.usetime.getD 0) ++ ",\n" else ""

/-- The `notification` line of a client record, when truthy. -/
def notificationPart (c : ClientDef) : String :=
  if truthyStr c.notification then
    "            notification = \x27" ++ c.notification.getD "" ++ "\x27,\n" else ""

/-- The `image` line of a client record, when truthy. -/
def imagePart (c : ClientDef) : String :=
  if truthyStr c.image then
    "            image = \x27" ++ c.image.getD "" ++ "\x27,\n" else ""

/-- The rewritten `imageurl` line of a client record, when truthy. -/
def imageurlPart (baseUrl : String) (c : ClientDef) : String :=
  if truthyStr c.imageurl then
    "            imageurl = \x27" ++ rewriteImageUrl baseUrl (c.imageurl.getD "") ++ "\x27,\n" else ""

/-- The `status` sub-mapping of a client record, when present. -/
def statusPart (c : ClientDef) : String :=
  match c.status with
  | some st => emitStatus st
  | none => ""

/-! Concrete sample data used by witnesses and counterexamples. -/

/-- A minimal sample item with no optional fields. -/
def itemA : Item := { name := "water", label := "Water" }

/-- A second minimal sample item. -/
def itemB : Item := { name := "bread", label := "Bread" }

/-- A sample item whose client references a stored image asset. -/
def imgItem : Item :=
  { name := "phone", label := "Phone",
    client := some { imageurl := some "http://h/uploads/images/img.png" } }

/-- An asset store with no files. -/
def store0 : AssetStore := ⟨[], []⟩

/-- An asset store where `img.png` exists and its unlink throws. -/
def storeFail : AssetStore := ⟨["img.png"], ["img.png"]⟩

/-- An asset store where `img.png` exists and unlinks normally. -/
def storeOk : AssetStore := ⟨["img.png"], []⟩

instance instDecEqExceptStr {ε α : Type} [DecidableEq ε] [DecidableEq α] :
    DecidableEq (Except ε α) := fun a b =>
  match a, b with
  | Except.error e, Except.error f =>
      if h : e = f then Decidable.isTrue (by rw [h])
      else Decidable.isFalse (by intro hc; cases hc; exact h rfl)
  | Except.error _, Except.ok _ => Decidable.isFalse (by intro hc; cases hc)
  | Except.ok _, Except.error _ => Decidable.isFalse (by intro hc; cases hc)
  | Except.ok e, Except.ok f =>
      if h : e = f then Decidable.isTrue (by rw [h])
      else Decidable.isFalse (by intro hc; cases hc; exact h rfl)

/-! Helper lemmas. -/

theorem strExt {s t : String} (h : s.data = t.data) : s = t := by
  cases s; cases t; exact congrArg String.mk h

theorem spliceRemoveOne_nan (l : List Item) : spliceRemoveOne l none = l.tail := by
  have hmin : min (0 : Int) (l.length : Int) = 0 :=
    min_eq_left (Int.natCast_nonneg l.length)
  simp [spliceRemoveOne, hmin, List.drop_one]

theorem spliceRemoveOne_some (l : List Item) (i : Int) :
    spliceRemoveOne l (some i) =
      l.eraseIdx ((if i < 0 then (l.length : Int) + i else min i (l.length : Int)).toNat) := by
  rw [List.eraseIdx_eq_take_drop_succ]
  have harg : (if i < 0 then max ((l.length : Int) + i) 0 else min i (l.length : Int)).toNat
      = (if i < 0 then (l.length : Int) + i else min i (l.length : Int)).toNat := by
    split <;> omega
  simp only [spliceRemoveOne]
  rw [harg]

theorem lookupImageurl_out_of_range (items : List Item) (i : Int)
    (h : i < 0 ∨ (items.length : Int) ≤ i) :
    lookupImageurl items (some i) = none := by
  rcases h with h | h
  · simp [lookupImageurl, h]
  · have hnn : ¬ i < 0 := by omega
    have hnone : items.get? i.toNat = none := by
      rw [List.get?_eq_none]
      omega
    rw [List.get?_eq_getElem?] at hnone
    simp [lookupImageurl, hnn, hnone]

theorem deleteAssetStep_ok (store : AssetStore) (o : Option String)
    (h : ∀ url, o = some url → lastSegment url ∉ store.failing) :
    ∃ store', deleteAssetStep store o = Except.ok store' := by
  cases o with
  | none => exact ⟨store, rfl⟩
  | some url =>
      by_cases hmem : lastSegment url ∈ store.files
      · refine ⟨{ files := store.files.erase (lastSegment url), failing := store.failing }, ?_⟩
        simp [deleteAssetStep, hmem, h url rfl]
      · exact ⟨store, by simp [deleteAssetStep, hmem]⟩

/-! Claim theorems. -/

/-- C1, counterexample: on the singleton collection `[itemA]`, deleting
at the out-of-range indices `1` and `-1` does not fail with an
IndexError; index `1` reports success leaving the collection unchanged,
and index `-1` reports success after actually removing the last item. -/
theorem deleteAt_out_of_range_cex :
    deleteItemRoute store0 [itemA] "1" = Except.ok ([itemA], store0) ∧
    deleteItemRoute store0 [itemA] "-1" = Except.ok ([], store0) := by decide

/-- C1, amended: deleting at an out-of-range index never fails with an
IndexError. The route reports success; for `index ≥ length` the
collection is unchanged, while a negative `index` follows the
`splice` convention and removes the item at `length + index` (clamped
to the first item when `index < -length`), without touching the asset
store. -/
theorem deleteAt_out_of_range_behavior (store : AssetStore) (items : List Item)
    (i : Int) (param : String) (hp : parseIntJS param = some i)
    (hout : i < 0 ∨ (items.length : Int) ≤ i) :
    deleteItemRoute store items param =
      Except.ok (items.eraseIdx ((if i < 0 then (items.length : Int) + i else i).toNat), store) ∧
    ((items.length : Int) ≤ i →
      items.eraseIdx ((if i < 0 then (items.length : Int) + i else i).toNat) = items) := by
  constructor
  · have hl : lookupImageurl items (some i) = none :=
      lookupImageurl_out_of_range items i (by tauto)
    simp only [deleteItemRoute, hp, hl, deleteAssetStep, Except.bind, bind,
      spliceRemoveOne_some, Except.ok.injEq, Prod.mk.injEq, and_true]
    rcases hout with h | h
    · simp [h]
    · have hnn : ¬ i < 0 := by omega
      have h1 : items.eraseIdx (min i (items.length : Int)).toNat = items :=
        List.eraseIdx_of_length_le (by omega)
      have h2 : items.eraseIdx i.toNat = items :=
        List.eraseIdx_of_length_le (by omega)
      simp [hnn, h1, h2]
  · intro hge
    have hnn : ¬ i < 0 := by omega
    rw [if_neg hnn]
    exact List.eraseIdx_of_length_le (by omega)

/-- C1 witness: deleting index `5` from the singleton `[itemA]`
succeeds and leaves the collection unchanged. -/
theorem deleteAt_out_of_range_behavior_witness :
    deleteItemRoute store0 [itemA] "5" =
      Except.ok ([itemA].eraseIdx ((if (5 : Int) < 0 then (List.length [itemA] : Int) + 5 else 5).toNat), store0) :=
  (deleteAt_out_of_range_behavior store0 [itemA] 5 "5" (by decide)
    (Or.inr (by decide))).1

/-- C2, counterexample: on the collection `[imgItem]`, whose only item
references the stored asset `img.png`, a throwing asset unlink makes
the whole route answer with the error (the catch block's 500), so the
item is not removed and no success is reported. -/
theorem deleteAt_asset_failure_cex :
    deleteItemRoute storeFail [imgItem] "0" = Except.error "Failed to delete item" ∧
    deleteItemRoute storeFail [imgItem] "0" ≠ Except.ok ([], storeFail) := by decide

/-- C2, amended: asset deletion is not best-effort. When the indexed
item's truthy `client.imageurl` names a stored file whose unlink
throws, the route aborts with the error before removing the item (a
missing file, by contrast, is skipped silently). -/
theorem deleteAt_asset_failure_aborts (store : AssetStore) (items : List Item)
    (i : Int) (param : String) (item : Item) (c : ClientDef) (url : String)
    (hp : parseIntJS param = some i) (hi : 0 ≤ i)
    (hget : items.get? i.toNat = some item) (hc : item.client = some c)
    (hu : c.imageurl = some url) (hne : url.isEmpty = false)
    (hf : lastSegment url ∈ store.files) (hfail : lastSegment url ∈ store.failing) :
    deleteItemRoute store items param = Except.error "Failed to delete item" := by
  have hl : lookupImageurl items (some i) = some url := by
    rw [List.get?_eq_getElem?] at hget
    simp [lookupImageurl, not_lt.mpr hi, hget, hc, hu, hne]
  simp [deleteItemRoute, hp, hl, deleteAssetStep, hf, hfail, Except.bind, bind]

/-- C2 witness: the amended statement applied to `storeFail` and
`[imgItem]` at index `0`. -/
theorem deleteAt_asset_failure_aborts_witness :
    deleteItemRoute storeFail [imgItem] "0" = Except.error "Failed to delete item" :=
  deleteAt_asset_failure_aborts storeFail [imgItem] 0 "0" imgItem
    { imageurl := some "http://h/uploads/images/img.png" }
    "http://h/uploads/images/img.png"
    (by decide) (by decide) (by decide) rfl rfl (by decide) (by decide) (by decide)

/-- C6: the Config Emitter is a pure function of the item sequence and
the base URL; two calls on equal inputs give byte-identical output. -/
theorem emit_deterministic (items₁ items₂ : List Item) (baseUrl₁ baseUrl₂ : String)
    (hi : items₁ = items₂) (hb : baseUrl₁ = baseUrl₂) :
    generateLua items₁ baseUrl₁ = generateLua items₂ baseUrl₂ := by
  rw [hi, hb]

/-- C6 witness: two calls on `[itemA]` with the same base URL agree. -/
theorem emit_deterministic_witness :
    generateLua [itemA] "http://h" = generateLua [itemA] "http://h" :=
  emit_deterministic [itemA] [itemA] "http://h" "http://h" rfl rfl

/-- C9: when the index route parameter does not parse as a number
(`parseInt` gives `NaN`), the route removes the first item of a
non-empty collection and reports success: the `NaN` index makes the
imageurl lookup come up empty and `splice` coerces `NaN` to `0`. -/
theorem deleteAt_nan_removes_first (store : AssetStore) (a : Item)
    (t : List Item) (param : String) (hp : parseIntJS param = none) :
    deleteItemRoute store (a :: t) param = Except.ok (t, store) := by
  simp [deleteItemRoute, hp, lookupImageurl, deleteAssetStep,
    spliceRemoveOne_nan, Except.bind, bind]

/-- C9 witness: deleting at the non-numeric parameter `"abc"` from
`[itemA, itemB]` removes `itemA` and succeeds. -/
theorem deleteAt_nan_removes_first_witness :
    deleteItemRoute store0 (itemA :: [itemB]) "abc" = Except.ok ([itemB], store0) :=
  deleteAt_nan_removes_first store0 itemA [itemB] "abc" (by decide)

theorem strAppend_empty (s : String) : s ++ "" = s :=
  strExt (by simp [String.data_append])

theorem strEmpty_append (s : String) : "" ++ s = s :=
  strExt (by simp [String.data_append])

theorem strAppend_assoc (a b c : String) : (a ++ b) ++ c = a ++ (b ++ c) :=
  strExt (by simp [String.data_append])

theorem truthyNum_none : truthyNum none = false := rfl

theorem truthyStr_none : truthyStr none = false := rfl

theorem truthyBool_none : truthyBool none = false := rfl

/-- C5: deleting a valid zero-based index `i` from a collection of
length `N` removes exactly the item at position `i` — provided the
best-effort asset unlink of that item (when it has one) does not throw,
the route succeeds, the result is `eraseIdx i`, its length is `N - 1`,
and it is the concatenation of the unchanged prefix before `i` with the
unchanged suffix after `i` (relative order preserved). -/
theorem deleteAt_in_range_removes_exactly (store : AssetStore) (items : List Item)
    (i : Int) (param : String) (hp : parseIntJS param = some i)
    (h0 : 0 ≤ i) (hlt : i < (items.length : Int))
    (hsafe : ∀ url, lookupImageurl items (some i) = some url →
      lastSegment url ∉ store.failing) :
    ∃ store', deleteItemRoute store items param = Except.ok (items.eraseIdx i.toNat, store') ∧
      (items.eraseIdx i.toNat).length = items.length - 1 ∧
      items.eraseIdx i.toNat = items.take i.toNat ++ items.drop (i.toNat + 1) := by
  obtain ⟨store', hs⟩ := deleteAssetStep_ok store (lookupImageurl items (some i)) hsafe
  refine ⟨store', ?_, ?_, ?_⟩
  · simp only [deleteItemRoute, hp, hs, Except.bind, bind]
    rw [spliceRemoveOne_some]
    have harg : (if i < 0 then (items.length : Int) + i
        else min i (items.length : Int)).toNat = i.toNat := by
      rw [if_neg (not_lt.mpr h0)]
      omega
    rw [harg]
  · have hlt' : i.toNat < items.length := by omega
    simp [List.length_eraseIdx, hlt']
  · exact List.eraseIdx_eq_take_drop_succ items i.toNat

/-- C5 witness: deleting index `1` from `[itemA, itemB]` removes
`itemB`, with length `1` and the order-preserving decomposition. -/
theorem deleteAt_in_range_removes_exactly_witness :
    ∃ store', deleteItemRoute store0 [itemA, itemB] "1" =
        Except.ok ([itemA, itemB].eraseIdx (Int.toNat 1), store') ∧
      ([itemA, itemB].eraseIdx (Int.toNat 1)).length = [itemA, itemB].length - 1 ∧
      [itemA, itemB].eraseIdx (Int.toNat 1) =
        [itemA, itemB].take (Int.toNat 1) ++ [itemA, itemB].drop (Int.toNat 1 + 1) :=
  deleteAt_in_range_removes_exactly store0 [itemA, itemB] 1 "1" (by decide)
    (by decide) (by decide) (by intro url h; simp [store0])

/-- C4: an optional field that is absent or falsy is omitted entirely;
an item with nothing truthy beyond its required `label` is emitted as a
keyed mapping holding exactly the `label` line, with no stray empty
sub-mappings. -/
theorem emit_label_only_minimal (baseUrl : String) (item : Item)
    (hw : truthyNum item.weight = false) (hd : truthyNum item.degrade = false)
    (hc : truthyNum item.consume = false) (hs : truthyBool item.stack = false)
    (hcl : item.client = none) (hsv : item.server = none)
    (hb : item.buttons = none ∨ item.buttons = some []) :
    emitItem baseUrl item =
      ("    [\x27" ++ item.name ++ "\x27] = \x7b\n") ++
      ("        label = \x27" ++ item.label ++ "\x27,\n    \x7d,\n") := by
  rcases hb with hb | hb <;>
    simp [emitItem, hw, hd, hc, hs, hcl, hsv, hb,
      strAppend_assoc, strAppend_empty, strEmpty_append]

/-- C4 witness: the minimal item `itemA` emits as its keyed mapping
with only the `label` line. -/
theorem emit_label_only_minimal_witness :
    emitItem "http://h" itemA =
      ("    [\x27" ++ itemA.name ++ "\x27] = \x7b\n") ++
      ("        label = \x27" ++ itemA.label ++ "\x27,\n    \x7d,\n") :=
  emit_label_only_minimal "http://h" itemA rfl rfl rfl rfl rfl rfl (Or.inl rfl)

/-- C10: a present `client` whose sub-fields are all falsy is emitted
as an empty `client` sub-mapping (any object is truthy in JavaScript),
and likewise a present `server` without a truthy `export` yields an
empty `server` sub-mapping. -/
theorem empty_client_server_submappings (baseUrl name label : String)
    (c : ClientDef) (srv : ServerDef)
    (ha : truthyStr c.anim = false) (hpr : truthyStr c.prop = false)
    (hu : truthyNum c.usetime = false) (hn : truthyStr c.notification = false)
    (him : truthyStr c.image = false) (hiu : truthyStr c.imageurl = false)
    (hst : c.status = none) (hex : truthyStr srv.«export» = false) :
    emitItem baseUrl { name := name, label := label, client := some c, server := some srv } =
      ("    [\x27" ++ name ++ "\x27] = \x7b\n") ++
      ("        label = \x27" ++ label ++
        "\x27,\n        client = \x7b\n        \x7d,\n        server = \x7b\n        \x7d,\n    \x7d,\n") := by
  simp [emitItem, emitClient, emitServer, ha, hpr, hu, hn, him, hiu, hst, hex,
    truthyNum_none, truthyBool_none, strAppend_assoc, strAppend_empty, strEmpty_append]

/-- C10 witness: an item with `client = {}` and `server = {}` emits
empty `client` and `server` sub-mappings. -/
theorem empty_client_server_submappings_witness :
    emitItem "http://h"
        { name := "water", label := "Water", client := some {}, server := some {} } =
      ("    [\x27" ++ "water" ++ "\x27] = \x7b\n") ++
      ("        label = \x27" ++ "Water" ++
        "\x27,\n        client = \x7b\n        \x7d,\n        server = \x7b\n        \x7d,\n    \x7d,\n") :=
  empty_client_server_submappings "http://h" "water" "Water" {} {}
    rfl rfl rfl rfl rfl rfl rfl rfl

/-- C7: every item is emitted with its fields in the fixed canonical
order — `label`, then `weight`, `degrade`, `consume`, `stack`, then the
`client`, `server` and `buttons` blocks — and a present client
sub-mapping orders its fields `anim`, `prop`, `usetime`,
`notification`, `image`, `imageurl`, `status`. -/
theorem emit_canonical_field_order (baseUrl : String) (item : Item) (c : ClientDef) :
    emitItem baseUrl item =
      itemHeader item ++ labelPart item ++ weightPart item ++ degradePart item ++
        consumePart item ++ stackPart item ++ clientPart baseUrl item ++
        serverPart item ++ buttonsPart item ++ "    \x7d,\n" ∧
    emitClient baseUrl c =
      "        client = \x7b\n" ++ animPart c ++ propPart c ++ usetimePart c ++
        notificationPart c ++ imagePart c ++ imageurlPart baseUrl c ++
        statusPart c ++ "        \x7d,\n" :=
  ⟨rfl, rfl⟩

/-- C8, counterexample: a status map whose keys are the array-index
strings `"1"` then `"0"` (insertion order) is emitted with `"0"` first
— `Object.entries` enumerates array-index keys in ascending numeric
order, not insertion order — so the output differs from the
order-preserving emission the spec describes. -/
theorem status_order_cex :
    emitStatus [("1", "5"), ("0", "3")] ≠ emitStatusSpecOrder [("1", "5"), ("0", "3")] ∧
    emitStatus [("1", "5"), ("0", "3")] =
      "            status = \x7b\n" ++
        "                [\x270\x27] = 3,\n" ++ "                [\x271\x27] = 5,\n" ++
        "            \x7d,\n" := by decide

/-- C8, amended: for a status map none of whose keys is an array-index
string, the emitted nested mapping preserves the input's key-insertion
order exactly, each value appearing as a raw unquoted token. -/
theorem status_order_preserved_nonindex (st : List (String × String))
    (h : ∀ e ∈ st, isArrayIndex e.1 = false) :
    emitStatus st = emitStatusSpecOrder st := by
  have h1 : st.filter (fun e => isArrayIndex e.1) = [] := by
    rw [List.filter_eq_nil_iff]
    intro a ha
    simp [h a ha]
  have h2 : st.filter (fun e => !isArrayIndex e.1) = st := by
    rw [List.filter_eq_self]
    intro a ha
    simp [h a ha]
  simp [emitStatus, emitStatusSpecOrder, jsEntries, h1, h2, sortByIndex]

/-- C8 witness: the two-key status map `thirst`, `hunger` keeps its
insertion order in the output. -/
theorem status_order_preserved_nonindex_witness :
    emitStatus [("thirst", "200000"), ("hunger", "100")] =
      emitStatusSpecOrder [("thirst", "200000"), ("hunger", "100")] :=
  status_order_preserved_nonindex [("thirst", "200000"), ("hunger", "100")] (by decide)

theorem afterScheme_http (xs : List Char) :
    afterScheme ('h' :: 't' :: 't' :: 'p' :: ':' :: '/' :: '/' :: xs) = some xs := rfl

theorem afterScheme_https (xs : List Char) :
    afterScheme ('h' :: 't' :: 't' :: 'p' :: 's' :: ':' :: '/' :: '/' :: xs) = some xs := rfl

theorem takeWhile_host_append (host p : List Char)
    (hh : ∀ ch ∈ host, ch ≠ '/') (hp : p = [] ∨ p.head? = some '/') :
    (host ++ p).takeWhile (fun ch => ch != '/') = host := by
  induction host with
  | nil =>
      rcases hp with hp | hp
      · simp [hp]
      · cases p with
        | nil => simp
        | cons a t =>
            have ha : a = '/' := by simpa using hp
            subst ha
            simp
  | cons a t ih =>
      have ha : a ≠ '/' := hh a (by simp)
      simp only [List.cons_append, List.takeWhile_cons, bne_iff_ne, ne_eq, ha,
        not_false_eq_true, if_true, List.cons.injEq, true_and]
      exact ih (fun ch hch => hh ch (by simp [hch]))

theorem strip_base_prepend (scheme host p : List Char)
    (hs : scheme = "http".data ∨ scheme = "https".data)
    (hh : host ≠ []) (hslash : ∀ ch ∈ host, ch ≠ '/')
    (hp : p = [] ∨ p.head? = some '/') :
    stripSchemeAuthL (scheme ++ ':' :: '/' :: '/' :: (host ++ p)) = p := by
  have htake := takeWhile_host_append host p hslash hp
  have hemp : host.isEmpty = false := by
    cases host with
    | nil => exact absurd rfl hh
    | cons a t => rfl
  rcases hs with hs | hs <;> subst hs
  · show stripSchemeAuthL ('h' :: 't' :: 't' :: 'p' :: ':' :: '/' :: '/' :: (host ++ p)) = p
    simp only [stripSchemeAuthL, afterScheme_http, htake, hemp]
    simp [List.drop_left]
  · show stripSchemeAuthL ('h' :: 't' :: 't' :: 'p' :: 's' :: ':' :: '/' :: '/' :: (host ++ p)) = p
    simp only [stripSchemeAuthL, afterScheme_https, htake, hemp]
    simp [List.drop_left]

/-- C3, counterexample: with `baseUrl = "http://h"`, rewriting the
relative reference `"foo"` once gives `"http://hfoo"`, and rewriting
that again with the same base gives `"http://h"` — the rewrite is not
idempotent for every imageurl string. -/
theorem rewrite_not_idempotent_cex :
    rewriteImageUrl "http://h" (rewriteImageUrl "http://h" "foo") ≠
      rewriteImageUrl "http://h" "foo" ∧
    rewriteImageUrl "http://h" "foo" = "http://hfoo" ∧
    rewriteImageUrl "http://h" (rewriteImageUrl "http://h" "foo") = "http://h" := by
  decide

/-- C3, amended: the rewrite is idempotent under a fixed base URL of
the shape `http(s)://authority` with a non-empty, slash-free
authority, for every imageurl whose stripped remainder is empty or
starts with `/` (in particular every absolute `http(s)` URL with an
absolute path, and every site-relative path): re-rewriting adds no
second prefix. -/
theorem rewrite_idempotent_wellformed (scheme host url : String)
    (hs : scheme = "http" ∨ scheme = "https")
    (hh : host.data ≠ []) (hslash : ∀ ch ∈ host.data, ch ≠ '/')
    (hp : (stripSchemeAuth url).data = [] ∨
      (stripSchemeAuth url).data.head? = some '/') :
    rewriteImageUrl (scheme ++ "://" ++ host)
        (rewriteImageUrl (scheme ++ "://" ++ host) url) =
      rewriteImageUrl (scheme ++ "://" ++ host) url := by
  apply strExt
  have hdata : ∀ s : String, (stripSchemeAuth s).data = stripSchemeAuthL s.data := fun _ => rfl
  simp only [rewriteImageUrl, String.data_append, hdata]
  have hbase : scheme.data ++ "://".data ++ host.data ++ stripSchemeAuthL url.data =
      scheme.data ++ ':' :: '/' :: '/' :: (host.data ++ stripSchemeAuthL url.data) := by
    simp [List.append_assoc]
  rw [hbase, strip_base_prepend scheme.data host.data (stripSchemeAuthL url.data)
    (by rcases hs with h | h <;> subst h <;> simp) hh hslash (by simpa [hdata] using hp)]
  simp [List.append_assoc]

/-- C3 witness: with base `http://cdn.example`, rewriting an absolute
URL recorded against another host is idempotent. -/
theorem rewrite_idempotent_wellformed_witness :
    rewriteImageUrl ("http" ++ "://" ++ "cdn.example")
        (rewriteImageUrl ("http" ++ "://" ++ "cdn.example")
          "https://old.host/uploads/x.png") =
      rewriteImageUrl ("http" ++ "://" ++ "cdn.example")
        "https://old.host/uploads/x.png" :=
  rewrite_idempotent_wellformed "http" "cdn.example" "https://old.host/uploads/x.png"
    (Or.inl rfl) (by decide) (by decide) (Or.inr (by decide))

/-! Concrete evaluation checks of the embedded functions, ending with
the end-to-end example of spec §8. -/

example : parseIntJS "12" = some 12 := by decide
example : parseIntJS "-1" = some (-1) := by decide
example : parseIntJS "abc" = none := by decide
example : parseIntJS "  +0x1a" = some 26 := by decide
example : parseIntJS "12px" = some 12 := by decide
example : stripSchemeAuth "https://old.host/uploads/x.png" = "/uploads/x.png" := by decide
example : stripSchemeAuth "http:///x" = "http:///x" := by decide
example : stripSchemeAuth "foo" = "foo" := by decide
example : rewriteImageUrl "http://h" "foo" = "http://hfoo" := by decide
example : rewriteImageUrl "http://h" "http://hfoo" = "http://h" := by decide
example : lastSegment "http://h/uploads/images/a.png" = "a.png" := by decide
example : lastSegment "plain" = "plain" := by decide
example : jsEntries [("1", "5"), ("0", "3")] = [("0", "3"), ("1", "5")] := by decide
example : jsEntries [("thirst", "200000"), ("hunger", "100")] =
    [("thirst", "200000"), ("hunger", "100")] := by decide
example :
    emitItem "https://cdn.example"
      { name := "waterbottle", label := "Water Bottle", weight := some 500,
        client := some { usetime := some 2500, status := some [("thirst", "200000")] } } =
    "    [\x27waterbottle\x27] = \x7b\n        label = \x27Water Bottle\x27,\n        weight = 500,\n        client = \x7b\n            usetime = 2500,\n            status = \x7b\n                [\x27thirst\x27] = 200000,\n            \x7d,\n        \x7d,\n    \x7d,\n" := by
  decide

end ItemPanel
